import Mathlib

/-!
Verification of the fortress gate (internal/worker/fortress) against its
specification. The implementation file is not part of the sampled sources
(only fortress_test.go is), so the Gate is modelled from the specification
text: sections 3 (data model), 4 (component design) and 5 (concurrency
model). The model is a labelled transition system over configurations
holding the mode, the in-flight operation count and the numbers of blocked
Visit and Close callers; each event is one atomic action taken under the
single point of serialization required by section 5, and carries the value
returned to the caller it resolves, when it resolves one.
-/

namespace Fortress

/-- Modelled from the spec: the tri-state mode of section 3 — Open
(ordinary operations permitted), Closed (exclusive phase, new ordinary
operations blocked), Terminated (permanently shut down). -/
inductive Mode where
  | opened
  | closed
  | terminated
deriving DecidableEq

/-- Modelled from the spec: the value a resolved call returns — success,
the Aborted signal, the Shutdown signal, the cancellation error of the
context of a blocked Visit, or the verbatim error of the operation
(opResult none is a nil error). -/
inductive RetVal where
  | ok
  | aborted
  | shutdown
  | ctxCancelled
  | opResult (e : Option String)
deriving DecidableEq

/-- Modelled from the spec: a Gate configuration — the mode, the count of
currently executing ordinary operations, and the numbers of Visit and
Close callers currently blocked (section 3 data model, section 5
suspension points). -/
structure Config where
  mode : Mode
  running : Nat
  waitingVisits : Nat
  waitingCloses : Nat
deriving DecidableEq

/-- Modelled from the spec: the initial mode is Closed, with no operation
in flight and nobody blocked (section 3, P1). -/
def initConfig : Config := ⟨Mode.closed, 0, 0, 0⟩

/-- Modelled from the spec: one atomic action of the Gate. Arrival events
resolve a fresh call or suspend it; wake events resolve a blocked caller;
visitStart and visitWake begin executing a supplied operation; visitFinish
is the operation returning its error e. -/
inductive Event where
  | openOk
  | openShutdown
  | closeFlip
  | closeNoop
  | closeShutdownNow
  | closeSuccess
  | closeAborted
  | closeShutdownWake
  | visitStart
  | visitBlock
  | visitShutdownNow
  | visitWake
  | visitCancel
  | visitShutdownWake
  | visitFinish (e : Option String)
  | terminate
deriving DecidableEq

/-- Modelled from the spec: the value an event returns to the caller it
resolves; none when the event resolves no caller (a suspension, the
phase-1 flip, or termination itself). -/
def Event.returns : Event → Option RetVal
  | .openOk => some .ok
  | .openShutdown => some .shutdown
  | .closeFlip => none
  | .closeNoop => some .ok
  | .closeShutdownNow => some .shutdown
  | .closeSuccess => some .ok
  | .closeAborted => some .aborted
  | .closeShutdownWake => some .shutdown
  | .visitStart => none
  | .visitBlock => none
  | .visitShutdownNow => some .shutdown
  | .visitWake => none
  | .visitCancel => some .ctxCancelled
  | .visitShutdownWake => some .shutdown
  | .visitFinish e => some (.opResult e)
  | .terminate => none

/-- Events that begin executing a Participant-supplied operation. -/
def Event.isRunStart : Event → Bool
  | .visitStart => true
  | .visitWake => true
  | _ => false

/-- Events by which a fresh Visit call arrives at the Gate. -/
def Event.isVisitArrival : Event → Bool
  | .visitStart => true
  | .visitBlock => true
  | .visitShutdownNow => true
  | _ => false

/-- Events by which a fresh Close call arrives at the Gate. -/
def Event.isCloseArrival : Event → Bool
  | .closeFlip => true
  | .closeNoop => true
  | .closeShutdownNow => true
  | _ => false

/-- Events by which any fresh call (Open, Close or Visit) arrives. -/
def Event.isArrival : Event → Bool
  | .openOk => true
  | .openShutdown => true
  | .closeFlip => true
  | .closeNoop => true
  | .closeShutdownNow => true
  | .visitStart => true
  | .visitBlock => true
  | .visitShutdownNow => true
  | _ => false

/-- Events resolving a caller that was blocked (a Close in its phase-2
wait, or a Visit suspended on the Closed mode). -/
def Event.isWaitCompletion : Event → Bool
  | .closeSuccess => true
  | .closeAborted => true
  | .closeShutdownWake => true
  | .visitWake => true
  | .visitCancel => true
  | .visitShutdownWake => true
  | _ => false

/-- Modelled from the spec: the single-step transition relation of the
Gate (sections 4.1 to 4.3 and 5). Open flips any non-terminated mode to
Open; Close while Open commits its irrevocable phase-1 flip and enters the
phase-2 wait; Close while Closed is an immediate no-op success; the
phase-2 wait resolves on a zero count, on cancellation (leaving the mode
untouched) or on termination; a Visit runs only while Open, suspends while
Closed, and is refused with Shutdown while Terminated; termination is a
broadcast superseding every other outcome for blocked callers. -/
inductive Step : Config → Event → Config → Prop where
  | openOk (c : Config) :
      c.mode ≠ Mode.terminated →
      Step c Event.openOk {c with mode := Mode.opened}
  | openShutdown (c : Config) :
      c.mode = Mode.terminated →
      Step c Event.openShutdown c
  | closeFlip (c : Config) :
      c.mode = Mode.opened →
      Step c Event.closeFlip
        {c with mode := Mode.closed, waitingCloses := c.waitingCloses + 1}
  | closeNoop (c : Config) :
      c.mode = Mode.closed →
      Step c Event.closeNoop c
  | closeShutdownNow (c : Config) :
      c.mode = Mode.terminated →
      Step c Event.closeShutdownNow c
  | closeSuccess (c : Config) :
      c.mode ≠ Mode.terminated → c.running = 0 → 0 < c.waitingCloses →
      Step c Event.closeSuccess {c with waitingCloses := c.waitingCloses - 1}
  | closeAborted (c : Config) :
      c.mode ≠ Mode.terminated → 0 < c.waitingCloses →
      Step c Event.closeAborted {c with waitingCloses := c.waitingCloses - 1}
  | closeShutdownWake (c : Config) :
      c.mode = Mode.terminated → 0 < c.waitingCloses →
      Step c Event.closeShutdownWake
        {c with waitingCloses := c.waitingCloses - 1}
  | visitStart (c : Config) :
      c.mode = Mode.opened →
      Step c Event.visitStart {c with running := c.running + 1}
  | visitBlock (c : Config) :
      c.mode = Mode.closed →
      Step c Event.visitBlock {c with waitingVisits := c.waitingVisits + 1}
  | visitShutdownNow (c : Config) :
      c.mode = Mode.terminated →
      Step c Event.visitShutdownNow c
  | visitWake (c : Config) :
      c.mode = Mode.opened → 0 < c.waitingVisits →
      Step c Event.visitWake
        {c with waitingVisits := c.waitingVisits - 1,
                running := c.running + 1}
  | visitCancel (c : Config) :
      c.mode ≠ Mode.terminated → 0 < c.waitingVisits →
      Step c Event.visitCancel {c with waitingVisits := c.waitingVisits - 1}
  | visitShutdownWake (c : Config) :
      c.mode = Mode.terminated → 0 < c.waitingVisits →
      Step c Event.visitShutdownWake
        {c with waitingVisits := c.waitingVisits - 1}
  | visitFinish (c : Config) (e : Option String) :
      0 < c.running →
      Step c (Event.visitFinish e) {c with running := c.running - 1}
  | terminate (c : Config) :
      Step c Event.terminate {c with mode := Mode.terminated}

/-- A finite execution of the Gate: a list of events joining two
configurations by chained steps. -/
inductive Trace : Config → List Event → Config → Prop where
  | nil (c : Config) : Trace c [] c
  | cons (c c1 c2 : Config) (e : Event) (es : List Event) :
      Step c e c1 → Trace c1 es c2 → Trace c (e :: es) c2

/-- Modelled from the spec: the Gate state a single non-suspending Visit
call observes — the mode and the in-flight count (section 3). -/
structure Gate where
  mode : Mode
  count : Nat
deriving DecidableEq

/-- Outcome of the functional Visit model: the verbatim error of the
operation, the Shutdown signal, suspension on the Closed mode, or the
runtime panic the Go language raises when a nil function value is
invoked. -/
inductive VisitOutcome where
  | ret (e : Option String)
  | shutdown
  | blocked
  | panicked
deriving DecidableEq

/-- Modelled from the spec: the non-suspending paths of Visit
(section 4.3). The caller-supplied operation is a function on an external
world W returning the updated world and its error; none models a nil Go
function value. While Terminated the call returns the Shutdown signal at
once and op is never touched; while Closed the caller suspends; while
Open the count is incremented, op is invoked exactly once, the count is
decremented unconditionally, and the error of op is returned verbatim. -/
def visit {W : Type} (g : Gate) (op : Option (W → W × Option String))
    (w : W) : Gate × W × VisitOutcome :=
  match g.mode with
  | Mode.terminated => (g, w, VisitOutcome.shutdown)
  | Mode.closed => (g, w, VisitOutcome.blocked)
  | Mode.opened =>
    match op with
    | none => ({g with count := g.count + 1}, w, VisitOutcome.panicked)
    | some f =>
      let g1 : Gate := {g with count := g.count + 1}
      let p := f w
      let g2 : Gate := {g1 with count := g1.count - 1}
      (g2, p.1, VisitOutcome.ret p.2)

/-- Modelled from the spec: several independent Gates live in one
process, one per guarded resource (section 3 lifecycle, section 6); the
system state maps each gate index to its configuration. -/
def GateSys : Type := Nat → Config

/-- Modelled from the spec: every Gate of the system starts in its
initial configuration. -/
def sysInit : GateSys := fun _ => initConfig

/-- A step of the whole system: one Gate takes one step; all the other
Gates keep their configuration. -/
inductive SysStep : GateSys → Nat → Event → GateSys → Prop where
  | step (s : GateSys) (i : Nat) (e : Event) (c : Config) :
      Step (s i) e c → SysStep s i e (Function.update s i c)

/-- Net effect of one event on the in-flight count, counted in the
integers. -/
def Event.delta : Event → Int
  | .visitStart => 1
  | .visitWake => 1
  | .visitFinish _ => -1
  | _ => 0

/-- Net effect of a list of events on the in-flight count. -/
def netCount : List Event → Int
  | [] => 0
  | e :: es => Event.delta e + netCount es

/-- Number of operation-start events in a list. -/
def startCount : List Event → Nat
  | [] => 0
  | e :: es => (if e.isRunStart then 1 else 0) + startCount es

/-- Number of operation-completion events in a list. -/
def finishCount : List Event → Nat
  | [] => 0
  | Event.visitFinish _ :: es => finishCount es + 1
  | _ :: es => finishCount es

theorem netCount_eq (es : List Event) :
    netCount es = (startCount es : Int) - (finishCount es : Int) := by
  induction es with
  | nil => simp [netCount, startCount, finishCount]
  | cons e es ih =>
    cases e <;>
      simp [netCount, startCount, finishCount, Event.delta,
        Event.isRunStart, ih] <;>
      omega

theorem step_running {c c1 : Config} {e : Event} (h : Step c e c1) :
    (c1.running : Int) = (c.running : Int) + e.delta := by
  cases h <;> (simp only [Event.delta]; omega)

theorem trace_running {c c1 : Config} {es : List Event}
    (h : Trace c es c1) :
    (c1.running : Int) = (c.running : Int) + netCount es := by
  induction h with
  | nil c => simp [netCount]
  | cons c ca cb e es hs ht ih =>
    have := step_running hs
    simp [netCount]
    omega

theorem trace_append_split {c c2 : Config} {es1 es2 : List Event}
    (h : Trace c (es1 ++ es2) c2) :
    ∃ m, Trace c es1 m ∧ Trace m es2 c2 := by
  induction es1 generalizing c with
  | nil => exact ⟨c, Trace.nil c, h⟩
  | cons e es ih =>
    cases h with
    | cons _ ca _ _ _ hs ht =>
      obtain ⟨m, h1, h2⟩ := ih ht
      exact ⟨m, Trace.cons _ _ _ _ _ hs h1, h2⟩

theorem step_runStart_opened {c c1 : Config} {e : Event}
    (h : Step c e c1) (hr : e.isRunStart = true) : c.mode = Mode.opened := by
  cases h <;> simp_all [Event.isRunStart]

theorem step_closed_stays {c c1 : Config} {e : Event} (h : Step c e c1)
    (hm : c.mode = Mode.closed ∨ c.mode = Mode.terminated)
    (hne : e ≠ Event.openOk) :
    c1.mode = Mode.closed ∨ c1.mode = Mode.terminated := by
  cases h <;> simp_all

theorem closeSuccess_drained {c c1 : Config}
    (h : Step c Event.closeSuccess c1) : c.running = 0 := by
  cases h
  assumption

/-- Claim C1: no Participant-supplied operation is ever executing while
the Gate is in the exclusive phase with the drain complete. First, an
operation begins only while the mode is Open; second, the phase-2 wait of
Close resolves with success only when the in-flight count is zero; third,
in any execution starting from the Closed mode (in particular right after
phase 1 of Close commits), any event that begins an operation is preceded
by an Open event returning the mode to Open. -/
theorem close_exclusion :
    (∀ c c1 (e : Event), Step c e c1 → e.isRunStart = true →
      c.mode = Mode.opened) ∧
    (∀ c c1, Step c Event.closeSuccess c1 → c.running = 0) ∧
    (∀ c (es1 : List Event) (e : Event) es2 c2,
      Trace c (es1 ++ e :: es2) c2 →
      (c.mode = Mode.closed ∨ c.mode = Mode.terminated) →
      e.isRunStart = true → Event.openOk ∈ es1) := by
  refine ⟨fun c c1 e h hr => step_runStart_opened h hr,
    fun c c1 h => closeSuccess_drained h, ?_⟩
  intro c es1
  induction es1 generalizing c with
  | nil =>
    intro e es2 c2 ht hm hr
    cases ht with
    | cons _ ca _ _ _ hs _ =>
      have := step_runStart_opened hs hr
      rcases hm with hm | hm <;> simp [hm] at this
  | cons e0 es ih =>
    intro e es2 c2 ht hm hr
    cases ht with
    | cons _ ca _ _ _ hs htl =>
      by_cases he0 : e0 = Event.openOk
      · simp [he0]
      · have hm1 := step_closed_stays hs hm he0
        exact List.mem_cons_of_mem _ (ih ca e es2 c2 htl hm1 hr)

/-- Claim C1 witness: a concrete drain-complete step — closeSuccess from
the configuration with mode Closed, one waiting Close and nobody running
certifies the in-flight count there is zero. -/
theorem close_exclusion_witness :
    (⟨Mode.closed, 0, 0, 1⟩ : Config).running = 0 :=
  close_exclusion.2.1 ⟨Mode.closed, 0, 0, 1⟩ _
    (Step.closeSuccess ⟨Mode.closed, 0, 0, 1⟩ (by decide) rfl (by decide))

/-- Claim C2: when a Close call waiting on an in-flight operation is
cancelled, the call resolves with the Aborted signal, the mode stays
Closed with the running count untouched, any Visit arriving right after
observes Closed and suspends, and a subsequent Open succeeds — moving the
mode to Open and admitting new Visits — while the in-flight operation of
before is still running. -/
theorem aborted_close_still_closed :
    ∀ c : Config, c.mode = Mode.closed → 0 < c.waitingCloses →
      0 < c.running →
    Event.returns Event.closeAborted = some RetVal.aborted ∧
    ∃ c1, Step c Event.closeAborted c1 ∧ c1.mode = Mode.closed ∧
      c1.running = c.running ∧
      (∀ (e : Event) c2, Step c1 e c2 → e.isVisitArrival = true →
        e = Event.visitBlock) ∧
      ∃ c2, Step c1 Event.openOk c2 ∧ c2.mode = Mode.opened ∧
        c2.running = c.running ∧
        ∃ c3, Step c2 Event.visitStart c3 ∧ c3.running = c.running + 1 := by
  intro c hm hw hr
  refine ⟨rfl, {c with waitingCloses := c.waitingCloses - 1},
    Step.closeAborted c (by simp [hm]) hw, hm, rfl, ?_, ?_⟩
  · intro e c2 hs hv
    cases hs <;> simp_all [Event.isVisitArrival]
  · refine ⟨_, Step.openOk _ (by simp [hm]), rfl, rfl,
      _, Step.visitStart _ rfl, rfl⟩

/-- Claim C2 witness: the scenario instantiated at the configuration with
mode Closed, one running operation and one waiting Close. -/
theorem aborted_close_still_closed_witness :
    Event.returns Event.closeAborted = some RetVal.aborted :=
  (aborted_close_still_closed ⟨Mode.closed, 1, 0, 1⟩ rfl (by decide)
    (by decide)).1

/-- Claim C3: on a terminated Gate, the Open, Close and Visit arrival
steps returning the Shutdown signal are enabled, every possible arrival
step resolves at once with the Shutdown signal (none suspends), callers
already blocked are resolved by steps returning the Shutdown signal, and
every possible resolution of a blocked caller returns the Shutdown
signal. -/
theorem terminated_all_shutdown :
    ∀ c : Config, c.mode = Mode.terminated →
    (Step c Event.openShutdown c ∧ Step c Event.closeShutdownNow c ∧
      Step c Event.visitShutdownNow c ∧
      Event.returns Event.openShutdown = some RetVal.shutdown ∧
      Event.returns Event.closeShutdownNow = some RetVal.shutdown ∧
      Event.returns Event.visitShutdownNow = some RetVal.shutdown) ∧
    (∀ (e : Event) c1, Step c e c1 → e.isArrival = true →
      e.returns = some RetVal.shutdown) ∧
    (0 < c.waitingVisits →
      Step c Event.visitShutdownWake
        {c with waitingVisits := c.waitingVisits - 1}) ∧
    (0 < c.waitingCloses →
      Step c Event.closeShutdownWake
        {c with waitingCloses := c.waitingCloses - 1}) ∧
    (∀ (e : Event) c1, Step c e c1 → e.isWaitCompletion = true →
      e.returns = some RetVal.shutdown) := by
  intro c hm
  refine ⟨⟨Step.openShutdown c hm, Step.closeShutdownNow c hm,
    Step.visitShutdownNow c hm, rfl, rfl, rfl⟩, ?_,
    fun hv => Step.visitShutdownWake c hm hv,
    fun hw => Step.closeShutdownWake c hm hw, ?_⟩
  · intro e c1 hs ha
    cases hs <;> simp_all [Event.isArrival, Event.returns]
  · intro e c1 hs hw
    cases hs <;> simp_all [Event.isWaitCompletion, Event.returns]

/-- Claim C3 witness: the terminated configuration with one blocked Visit
and one blocked Close admits the immediate Shutdown resolution of a fresh
Open call. -/
theorem terminated_all_shutdown_witness :
    Step (⟨Mode.terminated, 0, 1, 1⟩ : Config) Event.openShutdown
      ⟨Mode.terminated, 0, 1, 1⟩ :=
  (terminated_all_shutdown ⟨Mode.terminated, 0, 1, 1⟩ rfl).1.1

/-- Claim C4: a Close that resolves with drain success is preceded by the
completion of every operation that was in flight when it started waiting:
in any execution from a configuration with n running operations, at least
n operation-completion events occur before a closeSuccess event; and while
the mode is Closed a freshly arriving Visit can only suspend. -/
theorem close_waits_for_drain :
    (∀ c (es1 es2 : List Event) c2,
      Trace c (es1 ++ Event.closeSuccess :: es2) c2 →
      c.running ≤ finishCount es1) ∧
    (∀ c (e : Event) c1, Step c e c1 → c.mode = Mode.closed →
      e.isVisitArrival = true → e = Event.visitBlock) := by
  constructor
  · intro c es1 es2 c2 ht
    obtain ⟨m, h1, h2⟩ := trace_append_split ht
    cases h2 with
    | cons _ ca _ _ _ hs _ =>
      have hz : m.running = 0 := closeSuccess_drained hs
      have hrun := trace_running h1
      have hnet := netCount_eq es1
      omega
  · intro c e c1 hs hm hv
    cases hs <;> simp_all [Event.isVisitArrival]

/-- Claim C4 witness: from the configuration with one running operation
and one waiting Close, the execution finishing the operation and then
resolving the Close with drain success contains one completion event
before the closeSuccess, which bounds the initial running count. -/
theorem close_waits_for_drain_witness :
    (⟨Mode.closed, 1, 0, 1⟩ : Config).running ≤
      finishCount [Event.visitFinish none] :=
  close_waits_for_drain.1 ⟨Mode.closed, 1, 0, 1⟩ [Event.visitFinish none]
    [] ⟨Mode.closed, 0, 0, 0⟩
    (Trace.cons _ ⟨Mode.closed, 0, 0, 1⟩ _ _ _
      (Step.visitFinish ⟨Mode.closed, 1, 0, 1⟩ none (by decide))
      (Trace.cons _ ⟨Mode.closed, 0, 0, 0⟩ _ _ _
        (Step.closeSuccess ⟨Mode.closed, 0, 0, 1⟩ (by decide) rfl
          (by decide))
        (Trace.nil _)))

/-- Claim C5: a Visit made while the mode is Open invokes the operation
exactly once (the final world is the world after exactly one application
of f), returns exactly the error of the operation — nil included —
unchanged and unwrapped, and leaves the Gate state, mode and count
bookkeeping included, exactly as before, whatever the error was. -/
theorem visit_runs_op_exactly_once :
    ∀ (W : Type) (g : Gate) (f : W → W × Option String) (w : W),
      g.mode = Mode.opened →
      visit g (some f) w = (g, (f w).1, VisitOutcome.ret (f w).2) := by
  intro W g f w hm
  cases g with
  | mk m cnt =>
    simp at hm
    subst hm
    simp [visit]

/-- Claim C5 witness: a concrete operation on the world of naturals run
through an Open gate — the world advances by one application and the nil
error comes back verbatim. -/
theorem visit_runs_op_exactly_once_witness :
    visit ⟨Mode.opened, 0⟩ (some (fun n => (n + 1, none))) (5 : Nat) =
      (⟨Mode.opened, 0⟩, 6, VisitOutcome.ret none) :=
  visit_runs_op_exactly_once Nat ⟨Mode.opened, 0⟩
    (fun n => (n + 1, none)) 5 rfl

/-- Claim C6: a freshly constructed Gate starts in the Closed mode, and a
Visit issued immediately, before any Open call, can only suspend: the
sole visit-arrival step enabled at the initial configuration is
visitBlock, which resolves no caller and runs no operation. -/
theorem fresh_gate_starts_closed :
    initConfig.mode = Mode.closed ∧
    ∀ (e : Event) c1, Step initConfig e c1 → e.isVisitArrival = true →
      e = Event.visitBlock ∧ e.returns = none := by
  refine ⟨rfl, ?_⟩
  intro e c1 hs hv
  cases hs <;> simp_all [Event.isVisitArrival, Event.returns, initConfig]

/-- Claim C6 witness: the suspension step of a Visit at the initial
configuration, run through the theorem. -/
theorem fresh_gate_starts_closed_witness :
    Event.visitBlock = Event.visitBlock ∧
      Event.returns Event.visitBlock = none :=
  fresh_gate_starts_closed.2 Event.visitBlock ⟨Mode.closed, 0, 1, 0⟩
    (Step.visitBlock initConfig rfl) rfl

/-- Claim C7: Open and Close are idempotent on a non-terminated Gate.
While already Open, the Open step is enabled, leaves the configuration
exactly unchanged and returns success at once; while already Closed, the
sole enabled Close arrival is the immediate no-op success, which leaves
the configuration exactly unchanged and involves no wait. -/
theorem open_close_idempotent :
    ∀ c : Config,
    (c.mode = Mode.opened →
      Step c Event.openOk c ∧
      (∀ c1, Step c Event.openOk c1 → c1 = c) ∧
      Event.returns Event.openOk = some RetVal.ok) ∧
    (c.mode = Mode.closed →
      Step c Event.closeNoop c ∧
      (∀ c1, Step c Event.closeNoop c1 → c1 = c) ∧
      (∀ (e : Event) c1, Step c e c1 → e.isCloseArrival = true →
        e = Event.closeNoop) ∧
      Event.returns Event.closeNoop = some RetVal.ok) := by
  intro c
  constructor
  · intro hm
    have h0 : ({c with mode := Mode.opened} : Config) = c := by
      cases c
      simp_all
    refine ⟨h0 ▸ Step.openOk c (by simp [hm]), ?_, rfl⟩
    intro c1 hs
    cases hs with
    | openOk _ => exact h0
  · intro hm
    refine ⟨Step.closeNoop c hm, ?_, ?_, rfl⟩
    · intro c1 hs
      cases hs with
      | closeNoop _ => rfl
    · intro e c1 hs ha
      cases hs <;> simp_all [Event.isCloseArrival]

/-- Claim C7 witness: the second Open on an already Open configuration is
the identity step. -/
theorem open_close_idempotent_witness :
    Step (⟨Mode.opened, 0, 0, 0⟩ : Config) Event.openOk
      ⟨Mode.opened, 0, 0, 0⟩ :=
  ((open_close_idempotent ⟨Mode.opened, 0, 0, 0⟩).1 rfl).1

/-- Claim C8: two separately constructed Gates share no state — a step
taken by one Gate of the system leaves the configuration of every other
Gate identical, hence exactly the same Participant steps are enabled on
the untouched Gate before and after. -/
theorem gates_independent :
    ∀ (s : GateSys) (i : Nat) (e : Event) (s2 : GateSys) (j : Nat),
      SysStep s i e s2 → j ≠ i →
      s2 j = s j ∧
      (∀ (e2 : Event) (c2 : Config), Step (s j) e2 c2 ↔ Step (s2 j) e2 c2) := by
  intro s i e s2 j hs hj
  cases hs with
  | step c hstep =>
    have h : Function.update s i c j = s j := Function.update_noteq hj c s
    exact ⟨h, fun e2 c2 => by rw [h]⟩

/-- Claim C8 witness: terminating gate 0 of the fresh system leaves
gate 1 in its prior configuration. -/
theorem gates_independent_witness :
    Function.update sysInit 0 (⟨Mode.terminated, 0, 0, 0⟩ : Config) 1 =
      sysInit 1 :=
  (gates_independent sysInit 0 Event.terminate
    (Function.update sysInit 0 ⟨Mode.terminated, 0, 0, 0⟩) 1
    (SysStep.step sysInit 0 Event.terminate ⟨Mode.terminated, 0, 0, 0⟩
      (Step.terminate (sysInit 0)))
    (by decide)).1

/-- Claim C9: the state invariants. The in-flight count of any execution
from the initial configuration equals the integer net event count and so
never drops below zero; a step may increase the count only while the mode
is Open; a step changes the mode only between Open and Closed or into
Terminated; and Terminated is absorbing — no step leaves it. -/
theorem gate_invariants :
    (∀ (es : List Event) (c1 : Config), Trace initConfig es c1 →
      netCount es = (c1.running : Int) ∧ 0 ≤ netCount es) ∧
    (∀ (c : Config) (e : Event) (c1 : Config), Step c e c1 →
      c.running < c1.running → c.mode = Mode.opened) ∧
    (∀ (c : Config) (e : Event) (c1 : Config), Step c e c1 →
      c1.mode = c.mode ∨ (c.mode = Mode.closed ∧ c1.mode = Mode.opened) ∨
      (c.mode = Mode.opened ∧ c1.mode = Mode.closed) ∨
      c1.mode = Mode.terminated) ∧
    (∀ (c : Config) (e : Event) (c1 : Config), Step c e c1 →
      c.mode = Mode.terminated → c1.mode = Mode.terminated) := by
  refine ⟨?_, ?_, ?_, ?_⟩
  · intro es c1 ht
    have := trace_running ht
    simp [initConfig] at this
    omega
  · intro c e c1 h
    cases h <;> simp_all
  · intro c e c1 h
    cases h <;> try (exact Or.inl rfl)
    case openOk hne =>
      rcases hm : c.mode with _ | _ | _
      · exact Or.inl (by simp [hm])
      · exact Or.inr (Or.inl (by simp [hm]))
      · exact absurd hm hne
    case closeFlip hm => exact Or.inr (Or.inr (Or.inl (by simp [hm])))
    case terminate => exact Or.inr (Or.inr (Or.inr rfl))
  · intro c e c1 h
    cases h <;> simp_all

/-- Claim C9 witness: the invariants instantiated on the empty execution
from the initial configuration. -/
theorem gate_invariants_witness :
    netCount [] = (initConfig.running : Int) ∧ 0 ≤ netCount [] :=
  gate_invariants.1 [] initConfig (Trace.nil initConfig)

/-- Claim C10: a Visit on an already Terminated gate returns the Shutdown
signal without touching the operation argument at all — the world comes
back identical and no invocation happens even when the operation is a nil
function value. -/
theorem visit_terminated_never_invokes :
    ∀ (W : Type) (g : Gate) (op : Option (W → W × Option String)) (w : W),
      g.mode = Mode.terminated →
      visit g op w = (g, w, VisitOutcome.shutdown) := by
  intro W g op w hm
  cases g with
  | mk m cnt =>
    simp at hm
    subst hm
    simp [visit]

/-- Claim C10 witness: a nil operation passed to a terminated gate — the
Shutdown signal comes back, the world is untouched and no nil invocation
occurs. -/
theorem visit_terminated_never_invokes_witness :
    visit ⟨Mode.terminated, 3⟩
      (none : Option (Nat → Nat × Option String)) (7 : Nat) =
      (⟨Mode.terminated, 3⟩, 7, VisitOutcome.shutdown) :=
  visit_terminated_never_invokes Nat ⟨Mode.terminated, 3⟩ none 7 rfl

end Fortress
